import Mathlib

/-!
Verification of the session persistence module of `rsvp-reading`
(`src/lib/progress-storage.js`).

The module stores one reading session under a single fixed localStorage
key and offers two pure numeric conversion helpers.  We shallowly embed
it as follows.

* JSON-serializable JavaScript values are the inductive `JVal`
  (null, booleans, rational numbers, strings, arrays, objects as
  association lists).  JavaScript numbers are modelled as rationals:
  every quantity the module manipulates is exactly representable, so
  rational arithmetic with explicit `Int.floor` / `round` mirrors
  `Math.floor` / `Math.round`.
* The string held in the storage slot only matters through its
  falsiness and its `JSON.parse` behaviour, so a stored string is
  modelled by `RawString`: the empty string, a non-parseable string, or
  a string parsing to a given `JVal`.
* The store state `StoreState` carries the slot contents
  (`none` = key absent), a flag saying whether the storage facility
  throws on access, and the list of diagnostic messages written by
  `console.error`.
* The numeric helpers additionally have to distinguish `NaN`, `null`
  and `undefined` arguments, so they take arguments in `JsNum`;
  `ToNumber` coercion sends `null` to `0` and `NaN`/`undefined` to no
  value, and a `none` result models a `NaN` return.
-/

namespace ProgressStorage

/-- JSON-serializable JavaScript values.  Objects are association
lists; field lookup returns the first binding of a key. -/
inductive JVal where
  | jnull : JVal
  | bool (b : Bool) : JVal
  | num (q : ℚ) : JVal
  | str (s : String) : JVal
  | arr (vs : List JVal) : JVal
  | obj (fields : List (String × JVal)) : JVal

/-- A JavaScript object, as the module sees it: an association list of
fields. -/
abbrev JObj := List (String × JVal)

/-- Property access `o[k]` on an object: the first binding of `k`, or
`none` for JavaScript `undefined` when the key is missing. -/
def jget (o : JObj) (k : String) : Option JVal :=
  (o.find? (fun p => p.1 == k)).map (fun p => p.2)

/-- JavaScript truthiness (`!!v`) of a `JVal`.  `NaN` and `undefined`
cannot occur inside a parsed JSON value, so they are not cases here. -/
def truthy : JVal → Bool
  | .jnull => false
  | .bool b => b
  | .num q => q != 0
  | .str s => !s.isEmpty
  | .arr _ => true
  | .obj _ => true

/-- Whether a value is a non-empty string (the shape the spec ascribes
to a truthy `text` field). -/
def JVal.isNonemptyString : JVal → Bool
  | .str s => !s.isEmpty
  | _ => false

/-- JavaScript numeric arguments of the conversion helpers: a number,
`NaN`, `null` or `undefined`. -/
inductive JsNum where
  | num (q : ℚ) : JsNum
  | nan : JsNum
  | jnull : JsNum
  | undef : JsNum

/-- `ToNumber` coercion, as applied by `Math.min` / `Math.max` and the
arithmetic operators: `null` coerces to `0`; `NaN` and `undefined`
give `NaN`, modelled as `none`. -/
def JsNum.toNum : JsNum → Option ℚ
  | .num q => some q
  | .nan => none
  | .jnull => some 0
  | .undef => none

/-- `percentageToWordIndex(percentage, totalWords)` from
`progress-storage.js`:

```js
if (!totalWords || totalWords <= 0) return 0;
const clamped = Math.max(0, Math.min(100, percentage));
return Math.floor((clamped / 100) * totalWords);
```

For a numeric `totalWords` the guard `!totalWords || totalWords <= 0`
collapses to `totalWords ≤ 0`; the non-number cases `NaN`, `null`,
`undefined` are all falsy, so the guard returns `0` for them.  A `none`
result models a `NaN` return (which arises when `percentage` coerces
to `NaN`, since `Math.min`, `Math.max`, `/`, `*` and `Math.floor` all
propagate `NaN`). -/
def percentageToWordIndex (percentage totalWords : JsNum) : Option ℤ :=
  match totalWords with
  | .num t =>
    if t ≤ 0 then some 0
    else percentage.toNum.map (fun p => ⌊max 0 (min 100 p) / 100 * t⌋)
  | _ => some 0

/-- `wordIndexToPercentage(wordIndex, totalWords)` from
`progress-storage.js`:

```js
if (!totalWords || totalWords <= 0) return 0;
return Math.round((wordIndex / totalWords) * 100);
```

Same guard reading as `percentageToWordIndex`.  Mathlib's `round`
rounds halves up, exactly like `Math.round`. -/
def wordIndexToPercentage (wordIndex totalWords : JsNum) : Option ℤ :=
  match totalWords with
  | .num t =>
    if t ≤ 0 then some 0
    else wordIndex.toNum.map (fun w => round (w / t * 100))
  | _ => some 0

/-- The string content of the single storage slot, modelled by the only
two attributes the module reads off it: its falsiness (only the empty
string is falsy) and its `JSON.parse` behaviour. -/
inductive RawString where
  | empty : RawString
  | corrupt : RawString
  | parsed (v : JVal) : RawString

/-- State of the store: the slot under the fixed key (`none` = key
absent, i.e. `localStorage.getItem` returns `null`), whether the
storage facility currently throws on access, and the diagnostic log
written via `console.error` (messages in call order). -/
structure StoreState where
  slot : Option RawString
  failing : Bool
  log : List String

/-- The record `saveSession` builds and stringifies:

```js
const data = { text: session.text, currentWordIndex: session.currentWordIndex,
               totalWords: session.totalWords, settings: session.settings,
               savedAt: Date.now() };
```

Reading a missing property yields `undefined` (`jget` returns `none`),
and `JSON.stringify` drops object properties whose value is
`undefined`, hence the `filterMap`.  `savedAt` is always the `now`
argument (the value of `Date.now()` during the call).  `dataFields`
is the field list of the record; `buildData` the record itself. -/
def dataFields (session : JObj) (now : ℚ) : JObj :=
  ([("text", jget session "text"),
    ("currentWordIndex", jget session "currentWordIndex"),
    ("totalWords", jget session "totalWords"),
    ("settings", jget session "settings")].filterMap
      (fun kv => kv.2.map (fun v => (kv.1, v)))) ++
    [("savedAt", .num now)]

/-- The parsed form of the record `saveSession` serializes and
stores. -/
def buildData (session : JObj) (now : ℚ) : JVal :=
  .obj (dataFields session now)

/-- `saveSession(session)`: stringify the record and `setItem` it,
returning `true`; if the storage facility throws, `console.error` one
message and return `false` (the slot is unchanged, since `setItem` is
what threw).  `JSON.stringify` cannot throw on the JSON-pure values of
`JVal`. -/
def saveSession (session : JObj) (now : ℚ) (st : StoreState) :
    Bool × StoreState :=
  if st.failing then
    (false, { st with log := st.log ++ ["Failed to save session:"] })
  else
    (true, { st with slot := some (.parsed (buildData session now)) })

/-- `loadSession()`: `getItem`, return `null` on a falsy slot (absent
key or empty string), otherwise `JSON.parse` it.  A throw — from
`getItem` or from parsing a corrupt string — is caught, logged, and
turned into `null`.  The JavaScript `null` return is `JVal.jnull`. -/
def loadSession (st : StoreState) : JVal × StoreState :=
  if st.failing then
    (.jnull, { st with log := st.log ++ ["Failed to load session:"] })
  else
    match st.slot with
    | none => (.jnull, st)
    | some .empty => (.jnull, st)
    | some .corrupt =>
        (.jnull, { st with log := st.log ++ ["Failed to load session:"] })
    | some (.parsed v) => (v, st)

/-- `hasSession()`: `getItem(...) !== null`, with any throw silently
turned into `false`.  No state change and no logging. -/
def hasSession (st : StoreState) : Bool :=
  if st.failing then false else st.slot.isSome

/-- `clearSession()`: `removeItem` and return `true`; a throw is
logged and turned into `false`. -/
def clearSession (st : StoreState) : Bool × StoreState :=
  if st.failing then
    (false, { st with log := st.log ++ ["Failed to clear session:"] })
  else
    (true, { st with slot := none })

/-- The object `getSessionSummary` returns: exactly the four
properties `currentWordIndex`, `totalWords`, `savedAt`, `hasText` and
nothing else — in particular no `text`.  An `Option JVal` field with
value `none` models the property holding `undefined`. -/
structure Summary where
  currentWordIndex : Option JVal
  totalWords : Option JVal
  savedAt : Option JVal
  hasText : Bool

/-- `getSessionSummary()`: `getItem`; `null` on a falsy slot; parse and
project the three fields plus `hasText = !!parsed.text`.  All throws
(storage access, `JSON.parse` on a corrupt string, property access on
the parsed value `null`) are caught silently, returning `null`.
Property access on a parsed non-object non-null value (number, string,
boolean, array) does not throw and yields `undefined`. -/
def getSessionSummary (st : StoreState) : Option Summary :=
  if st.failing then none
  else
    match st.slot with
    | none => none
    | some .empty => none
    | some .corrupt => none
    | some (.parsed (.obj fs)) =>
        some ⟨jget fs "currentWordIndex", jget fs "totalWords",
              jget fs "savedAt", (jget fs "text").elim false truthy⟩
    | some (.parsed .jnull) => none
    | some (.parsed _) => some ⟨none, none, none, false⟩

/-! ## Smoke tests: the spec's example evaluations -/

example : percentageToWordIndex (.num 0) (.num 1000) = some 0 := by
  norm_num [percentageToWordIndex, JsNum.toNum]
example : percentageToWordIndex (.num 50) (.num 1000) = some 500 := by
  norm_num [percentageToWordIndex, JsNum.toNum]
example : percentageToWordIndex (.num 100) (.num 1000) = some 1000 := by
  norm_num [percentageToWordIndex, JsNum.toNum]
example : percentageToWordIndex (.num 150) (.num 1000) = some 1000 := by
  norm_num [percentageToWordIndex, JsNum.toNum]
example : percentageToWordIndex (.num (-10)) (.num 1000) = some 0 := by
  norm_num [percentageToWordIndex, JsNum.toNum]
example : percentageToWordIndex (.num 50) (.num 0) = some 0 := by
  norm_num [percentageToWordIndex]
example : wordIndexToPercentage (.num 500) (.num 1000) = some 50 := by
  norm_num [wordIndexToPercentage, JsNum.toNum, round_eq]
example : wordIndexToPercentage (.num 0) (.num 1000) = some 0 := by
  norm_num [wordIndexToPercentage, JsNum.toNum, round_eq]
example : wordIndexToPercentage (.num 1000) (.num 1000) = some 100 := by
  norm_num [wordIndexToPercentage, JsNum.toNum, round_eq]
example : wordIndexToPercentage (.num 1200) (.num 1000) = some 120 := by
  norm_num [wordIndexToPercentage, JsNum.toNum, round_eq]
example : wordIndexToPercentage (.num 500) (.num 0) = some 0 := by
  norm_num [wordIndexToPercentage]

/-! ## Helper lemmas about the stored record -/

/-- The `savedAt` field of the written record is the save-time clock
value: the first four bindings of `dataFields` have keys among `text`,
`currentWordIndex`, `totalWords`, `settings`, so the lookup reaches
the final `savedAt` binding. -/
theorem dataFields_savedAt (session : JObj) (now : ℚ) :
    jget (dataFields session now) "savedAt" = some (.num now) := by
  have hnone :
      ([("text", jget session "text"),
        ("currentWordIndex", jget session "currentWordIndex"),
        ("totalWords", jget session "totalWords"),
        ("settings", jget session "settings")].filterMap
          (fun kv => kv.2.map (fun v => (kv.1, v)))).find?
        (fun p => p.1 == "savedAt") = none := by
    rw [List.find?_eq_none]
    intro x hx
    rcases List.mem_filterMap.mp hx with ⟨a, ha, hfa⟩
    rcases Option.map_eq_some'.mp hfa with ⟨v, _, hxv⟩
    subst hxv
    fin_cases ha <;> simp
  show ((dataFields session now).find? (fun p => p.1 == "savedAt")).map
      (fun p => p.2) = some (JVal.num now)
  unfold dataFields
  rw [List.find?_append, hnone]
  simp

/-- On a session that carries all four expected fields, `dataFields`
is exactly the five-field record. -/
theorem dataFields_full (text cwi tw settings : JVal) (now : ℚ) :
    dataFields [("text", text), ("currentWordIndex", cwi),
      ("totalWords", tw), ("settings", settings)] now
      = [("text", text), ("currentWordIndex", cwi), ("totalWords", tw),
         ("settings", settings), ("savedAt", .num now)] := by
  simp [dataFields, jget]

/-! ## Claims about the conversion helpers -/

/-- C2: for every percentage `p` and every `totalWords` `t`,
`percentageToWordIndex` returns `0` when `t` is absent, zero or
negative; otherwise it returns `⌊clamp(p, 0, 100) / 100 * t⌋`, an
integer in the closed range `[0, t]`, and in particular `p = 100` maps
to exactly `t`. -/
theorem C2_percentageToWordIndex (p : ℚ) (t : ℤ) :
    percentageToWordIndex (.num p) .undef = some 0 ∧
    (t ≤ 0 → percentageToWordIndex (.num p) (.num t) = some 0) ∧
    (0 < t →
      percentageToWordIndex (.num p) (.num t)
        = some ⌊max 0 (min 100 p) / 100 * (t : ℚ)⌋ ∧
      0 ≤ ⌊max 0 (min 100 p) / 100 * (t : ℚ)⌋ ∧
      ⌊max 0 (min 100 p) / 100 * (t : ℚ)⌋ ≤ t) ∧
    (0 < t → percentageToWordIndex (.num 100) (.num t) = some t) := by
  refine ⟨rfl, ?_, ?_, ?_⟩
  · intro h
    have h' : (t : ℚ) ≤ 0 := by exact_mod_cast h
    simp [percentageToWordIndex, h']
  · intro h
    have h' : ¬ (t : ℚ) ≤ 0 := by rw [not_le]; exact_mod_cast h
    have hc0 : (0 : ℚ) ≤ max 0 (min 100 p) := le_max_left _ _
    have hc100 : max 0 (min 100 p) ≤ 100 :=
      max_le (by norm_num) (min_le_left _ _)
    have ht0 : (0 : ℚ) ≤ (t : ℚ) := le_of_lt (not_le.mp h')
    refine ⟨by simp [percentageToWordIndex, JsNum.toNum, h'], ?_, ?_⟩
    · exact Int.floor_nonneg.mpr (mul_nonneg (div_nonneg hc0 (by norm_num)) ht0)
    · have hle : max 0 (min 100 p) / 100 * (t : ℚ) ≤ (t : ℚ) := by
        calc max 0 (min 100 p) / 100 * (t : ℚ) ≤ 1 * (t : ℚ) := by
              refine mul_le_mul_of_nonneg_right ?_ ht0
              rw [div_le_one (by norm_num)]
              exact hc100
          _ = (t : ℚ) := one_mul _
      calc ⌊max 0 (min 100 p) / 100 * (t : ℚ)⌋ ≤ ⌊(t : ℚ)⌋ :=
            Int.floor_le_floor hle
        _ = t := Int.floor_intCast t
  · intro h
    have h' : ¬ (t : ℚ) ≤ 0 := by rw [not_le]; exact_mod_cast h
    simp [percentageToWordIndex, JsNum.toNum, h']

/-- C2 witness: at `p = 100`, `t = 1000` the conversion yields exactly
`1000`. -/
theorem C2_percentageToWordIndex_witness :
    (0 : ℤ) < 1000 ∧
    percentageToWordIndex (.num 100) (.num ((1000 : ℤ) : ℚ))
      = some (1000 : ℤ) :=
  ⟨by norm_num, (C2_percentageToWordIndex 100 1000).2.2.2 (by norm_num)⟩

/-- C3 counterexample: the claim says a `wordIndex` greater than
`totalWords` produces a percentage outside `[0, 100]`, but
`wordIndexToPercentage(1001, 1000) = round(100.1) = 100`, which lies
inside `[0, 100]` although `1001 > 1000`. -/
theorem C3_counterexample :
    (1001 : ℚ) > 1000 ∧
    wordIndexToPercentage (.num 1001) (.num 1000) = some 100 ∧
    (0 : ℤ) ≤ 100 ∧ (100 : ℤ) ≤ 100 := by
  refine ⟨by norm_num, ?_, by norm_num, by norm_num⟩
  norm_num [wordIndexToPercentage, JsNum.toNum, round_eq]

/-- C3 (amended): `wordIndexToPercentage` returns `0` when
`totalWords` is absent, zero or negative; otherwise it returns the
nearest-integer rounding of `(w / t) * 100` with no clamping applied
to `w`, so a `w` sufficiently greater than `t` can produce a
percentage outside `[0, 100]`, e.g.
`wordIndexToPercentage(1200, 1000) = 120`. -/
theorem C3_wordIndexToPercentage (w : ℚ) (t : ℤ) :
    wordIndexToPercentage (.num w) .undef = some 0 ∧
    (t ≤ 0 → wordIndexToPercentage (.num w) (.num t) = some 0) ∧
    (0 < t →
      wordIndexToPercentage (.num w) (.num t)
        = some (round (w / (t : ℚ) * 100))) ∧
    wordIndexToPercentage (.num 1200) (.num 1000) = some 120 := by
  refine ⟨rfl, ?_, ?_, ?_⟩
  · intro h
    have h' : (t : ℚ) ≤ 0 := by exact_mod_cast h
    simp [wordIndexToPercentage, h']
  · intro h
    have h' : ¬ (t : ℚ) ≤ 0 := by rw [not_le]; exact_mod_cast h
    simp [wordIndexToPercentage, JsNum.toNum, h']
  · norm_num [wordIndexToPercentage, JsNum.toNum, round_eq]

/-- C3 witness: at `w = 500`, `t = 1000` the percentage is `50`. -/
theorem C3_wordIndexToPercentage_witness :
    (0 : ℤ) < 1000 ∧
    wordIndexToPercentage (.num 500) (.num ((1000 : ℤ) : ℚ))
      = some (50 : ℤ) := by
  refine ⟨by norm_num, ?_⟩
  rw [(C3_wordIndexToPercentage 500 1000).2.2.1 (by norm_num)]
  norm_num [round_eq]

/-- C9: the `totalWords` guard is a falsiness check: for `totalWords`
equal to `NaN`, `null` or `undefined`, both conversions return `0`
(never `NaN`, and no division is attempted). -/
theorem C9_falsy_guard (p t : JsNum)
    (h : t = .nan ∨ t = .jnull ∨ t = .undef) :
    percentageToWordIndex p t = some 0 ∧
    wordIndexToPercentage p t = some 0 := by
  rcases h with h | h | h <;> subst h <;> exact ⟨rfl, rfl⟩

/-- C9 witness: at `p = 50`, `t = NaN` both conversions return `0`. -/
theorem C9_falsy_guard_witness :
    (JsNum.nan = JsNum.nan ∨ JsNum.nan = JsNum.jnull ∨
       JsNum.nan = JsNum.undef) ∧
    (percentageToWordIndex (.num 50) .nan = some 0 ∧
     wordIndexToPercentage (.num 50) .nan = some 0) :=
  ⟨Or.inl rfl, C9_falsy_guard (.num 50) .nan (Or.inl rfl)⟩

/-! ## Claims about the store operations -/

/-- C1: for every valid session object `S` (with fields `text`,
`currentWordIndex`, `totalWords`, `settings`), `loadSession()`
immediately after a successful `saveSession(S)` returns a record equal
to `S` in those four fields, plus a `savedAt` greater than or equal to
the clock value `t0` read just before the save call (`Date.now()`
during the call is `now`, and clocks do not go backwards:
`t0 ≤ now`). -/
theorem C1_save_load_roundtrip (text cwi tw settings : JVal)
    (st : StoreState) (hfail : st.failing = false) (t0 now : ℚ)
    (ht : t0 ≤ now) :
    (saveSession [("text", text), ("currentWordIndex", cwi),
        ("totalWords", tw), ("settings", settings)] now st).1 = true ∧
    ∃ d : JObj,
      (loadSession (saveSession [("text", text), ("currentWordIndex", cwi),
          ("totalWords", tw), ("settings", settings)] now st).2).1
        = .obj d ∧
      jget d "text" = some text ∧
      jget d "currentWordIndex" = some cwi ∧
      jget d "totalWords" = some tw ∧
      jget d "settings" = some settings ∧
      ∃ sa : ℚ, jget d "savedAt" = some (.num sa) ∧ t0 ≤ sa := by
  constructor
  · simp [saveSession, hfail]
  · refine ⟨[("text", text), ("currentWordIndex", cwi), ("totalWords", tw),
      ("settings", settings), ("savedAt", .num now)], ?_, ?_, ?_, ?_, ?_,
      now, ?_, ht⟩
    · simp [saveSession, loadSession, hfail, buildData, dataFields_full]
    all_goals simp [jget]

/-- C1 witness: a concrete round trip through an initially empty
store. -/
theorem C1_save_load_roundtrip_witness :
    (StoreState.mk none false []).failing = false ∧ (0 : ℚ) ≤ 0 ∧
    ((saveSession [("text", .str "hi"), ("currentWordIndex", .num 3),
        ("totalWords", .num 10), ("settings", .obj [])] 0
        (StoreState.mk none false [])).1 = true ∧
     ∃ d : JObj,
       (loadSession (saveSession [("text", .str "hi"),
           ("currentWordIndex", .num 3), ("totalWords", .num 10),
           ("settings", .obj [])] 0 (StoreState.mk none false [])).2).1
         = .obj d ∧
       jget d "text" = some (.str "hi") ∧
       jget d "currentWordIndex" = some (.num 3) ∧
       jget d "totalWords" = some (.num 10) ∧
       jget d "settings" = some (.obj []) ∧
       ∃ sa : ℚ, jget d "savedAt" = some (.num sa) ∧ (0 : ℚ) ≤ sa) :=
  ⟨rfl, le_refl 0,
   C1_save_load_roundtrip (.str "hi") (.num 3) (.num 10) (.obj [])
     (StoreState.mk none false []) rfl 0 0 (le_refl 0)⟩

/-- C4 counterexample: the stored record `{"text": 1}` has a `text`
that is not a (non-empty) string, yet `getSessionSummary` reports
`hasText = true`, because the code computes `!!parsed.text` and the
number `1` is truthy. -/
theorem C4_counterexample :
    getSessionSummary
        (StoreState.mk (some (.parsed (.obj [("text", .num 1)]))) false [])
      = some (Summary.mk none none none true) ∧
    JVal.isNonemptyString (.num 1) = false := by
  constructor
  · simp [getSessionSummary, jget, truthy]
  · rfl

/-- C4 (amended): `getSessionSummary()` returns an object with exactly
the fields `currentWordIndex`, `totalWords`, `savedAt`, `hasText` —
never `text` (the `Summary` type has no `text` field, mirroring the
object literal the code builds) — and `hasText` is the truthiness of
the stored `text` (`false` when `text` is absent); in particular, when
the stored `text` is a string, `hasText` is true iff it is
non-empty. -/
theorem C4_hasText (fs : JObj) (st : StoreState)
    (hfail : st.failing = false)
    (hslot : st.slot = some (.parsed (.obj fs))) :
    ∃ s : Summary, getSessionSummary st = some s ∧
      s.hasText = (jget fs "text").elim false truthy ∧
      (∀ str : String, jget fs "text" = some (.str str) →
        (s.hasText = true ↔ ¬ str = "")) ∧
      (jget fs "text" = none → s.hasText = false) := by
  refine ⟨Summary.mk (jget fs "currentWordIndex") (jget fs "totalWords")
      (jget fs "savedAt") ((jget fs "text").elim false truthy),
    by simp [getSessionSummary, hfail, hslot], rfl, ?_, ?_⟩
  · intro str hstr
    rw [hstr]
    simp [truthy, ← String.isEmpty_iff]
  · intro h
    rw [h]
    rfl

/-- C4 witness: a stored record whose `text` is the non-empty string
`"hi"` yields `hasText = true`. -/
theorem C4_hasText_witness :
    (StoreState.mk (some (.parsed (.obj [("text", .str "hi")]))) false
        []).failing = false ∧
    (StoreState.mk (some (.parsed (.obj [("text", .str "hi")]))) false
        []).slot = some (.parsed (.obj [("text", .str "hi")])) ∧
    (∃ s : Summary,
      getSessionSummary
          (StoreState.mk (some (.parsed (.obj [("text", .str "hi")])))
            false []) = some s ∧
      s.hasText = (jget [("text", .str "hi")] "text").elim false truthy ∧
      (∀ str : String,
        jget [("text", .str "hi")] "text" = some (.str str) →
          (s.hasText = true ↔ ¬ str = "")) ∧
      (jget [("text", .str "hi")] "text" = none → s.hasText = false)) :=
  ⟨rfl, rfl,
   C4_hasText [("text", .str "hi")]
     (StoreState.mk (some (.parsed (.obj [("text", .str "hi")]))) false [])
     rfl rfl⟩

/-- C5: the record persisted by `saveSession` always carries
`savedAt = Date.now()` read during the call; the write replaces
whatever was in the slot (the new slot content does not depend on the
old), and even for a session input that carries its own `savedAt`
field, the stored `savedAt` is the store's clock value. -/
theorem C5_savedAt_stamped (session : JObj) (st : StoreState)
    (hfail : st.failing = false) (now : ℚ) :
    (saveSession session now st).2.slot
      = some (.parsed (.obj (dataFields session now))) ∧
    jget (dataFields session now) "savedAt" = some (.num now) ∧
    (∀ v : JVal,
      jget (dataFields (("savedAt", v) :: session) now) "savedAt"
        = some (.num now)) := by
  refine ⟨?_, dataFields_savedAt session now,
    fun v => dataFields_savedAt (("savedAt", v) :: session) now⟩
  simp [saveSession, hfail, buildData]

/-- C5 witness: saving a session that claims `savedAt = 999` over a
non-empty slot stores `savedAt = 5`, the clock value. -/
theorem C5_savedAt_stamped_witness :
    (StoreState.mk (some (.parsed .jnull)) false []).failing = false ∧
    ((saveSession [("savedAt", .num 999)] 5
        (StoreState.mk (some (.parsed .jnull)) false [])).2.slot
      = some (.parsed (.obj (dataFields [("savedAt", .num 999)] 5))) ∧
     jget (dataFields [("savedAt", .num 999)] 5) "savedAt"
       = some (.num 5) ∧
     (∀ v : JVal,
       jget (dataFields (("savedAt", v) :: [("savedAt", .num 999)]) 5)
         "savedAt" = some (.num 5))) :=
  ⟨rfl, C5_savedAt_stamped [("savedAt", .num 999)]
    (StoreState.mk (some (.parsed .jnull)) false []) rfl 5⟩

/-- C6: when the storage facility throws, `saveSession` returns
`false` and appends exactly one diagnostic log entry; `loadSession` on
a stored string that `JSON.parse` rejects returns `null` and appends
exactly one diagnostic log entry.  Neither propagates an exception:
both are total functions of the state. -/
theorem C6_failures_contained (session : JObj) (now : ℚ)
    (st st' : StoreState) (hfail : st.failing = true)
    (hok : st'.failing = false) (hslot : st'.slot = some .corrupt) :
    (saveSession session now st).1 = false ∧
    (saveSession session now st).2.log
      = st.log ++ ["Failed to save session:"] ∧
    (loadSession st').1 = .jnull ∧
    (loadSession st').2.log
      = st'.log ++ ["Failed to load session:"] := by
  simp [saveSession, loadSession, hfail, hok, hslot]

/-- C6 witness: a throwing store and a corrupt slot, both with empty
logs. -/
theorem C6_failures_contained_witness :
    (StoreState.mk none true []).failing = true ∧
    (StoreState.mk (some .corrupt) false []).failing = false ∧
    (StoreState.mk (some .corrupt) false []).slot = some .corrupt ∧
    ((saveSession [] 0 (StoreState.mk none true [])).1 = false ∧
     (saveSession [] 0 (StoreState.mk none true [])).2.log
       = [] ++ ["Failed to save session:"] ∧
     (loadSession (StoreState.mk (some .corrupt) false [])).1 = .jnull ∧
     (loadSession (StoreState.mk (some .corrupt) false [])).2.log
       = [] ++ ["Failed to load session:"]) :=
  ⟨rfl, rfl, rfl,
   C6_failures_contained [] 0 (StoreState.mk none true [])
     (StoreState.mk (some .corrupt) false []) rfl rfl rfl⟩

/-- C7: `clearSession` returns `true` even on an already-empty slot,
clearing twice is the same as clearing once, and after a clear
`loadSession` returns `null` and `hasSession` returns `false`,
whatever the prior slot contents. -/
theorem C7_clearSession (st : StoreState) (hfail : st.failing = false) :
    (clearSession st).1 = true ∧
    clearSession (clearSession st).2 = clearSession st ∧
    (loadSession (clearSession st).2).1 = .jnull ∧
    hasSession (clearSession st).2 = false := by
  simp [clearSession, loadSession, hasSession, hfail]

/-- C7 witness: clearing an already-empty store reports success and
leaves no session. -/
theorem C7_clearSession_witness :
    (StoreState.mk none false []).failing = false ∧
    ((clearSession (StoreState.mk none false [])).1 = true ∧
     clearSession (clearSession (StoreState.mk none false [])).2
       = clearSession (StoreState.mk none false []) ∧
     (loadSession (clearSession (StoreState.mk none false [])).2).1
       = .jnull ∧
     hasSession (clearSession (StoreState.mk none false [])).2 = false) :=
  ⟨rfl, C7_clearSession (StoreState.mk none false []) rfl⟩

/-- C8: when the slot holds the empty string, `hasSession` (a strict
`!== null` check) reports `true` while `loadSession` and
`getSessionSummary` (whose `if (!data)` treats any falsy string as
absent) both report absence: the three operations disagree. -/
theorem C8_empty_string_slot (st : StoreState)
    (hfail : st.failing = false) (hslot : st.slot = some .empty) :
    hasSession st = true ∧ (loadSession st).1 = .jnull ∧
    getSessionSummary st = none := by
  simp [hasSession, loadSession, getSessionSummary, hfail, hslot]

/-- C8 witness: a store whose slot holds the empty string. -/
theorem C8_empty_string_slot_witness :
    (StoreState.mk (some .empty) false []).failing = false ∧
    (StoreState.mk (some .empty) false []).slot = some .empty ∧
    (hasSession (StoreState.mk (some .empty) false []) = true ∧
     (loadSession (StoreState.mk (some .empty) false [])).1 = .jnull ∧
     getSessionSummary (StoreState.mk (some .empty) false []) = none) :=
  ⟨rfl, rfl,
   C8_empty_string_slot (StoreState.mk (some .empty) false []) rfl rfl⟩

/-- C10: on every parseable stored object record,
`getSessionSummary` forwards `currentWordIndex`, `totalWords` and
`savedAt` verbatim (`jget` of the stored fields, with `none` =
`undefined` exactly when the record lacks the field), with no type or
presence validation. -/
theorem C10_summary_forwards (fs : JObj) (st : StoreState)
    (hfail : st.failing = false)
    (hslot : st.slot = some (.parsed (.obj fs))) :
    getSessionSummary st
      = some (Summary.mk (jget fs "currentWordIndex")
          (jget fs "totalWords") (jget fs "savedAt")
          ((jget fs "text").elim false truthy)) := by
  simp [getSessionSummary, hfail, hslot]

/-- C10 witness: a stored record with only `currentWordIndex` yields a
summary whose other fields are `undefined`. -/
theorem C10_summary_forwards_witness :
    (StoreState.mk (some (.parsed (.obj [("currentWordIndex", .num 3)])))
        false []).failing = false ∧
    (StoreState.mk (some (.parsed (.obj [("currentWordIndex", .num 3)])))
        false []).slot
      = some (.parsed (.obj [("currentWordIndex", .num 3)])) ∧
    getSessionSummary
        (StoreState.mk (some (.parsed (.obj [("currentWordIndex", .num 3)])))
          false [])
      = some (Summary.mk (some (.num 3)) none none false) := by
  refine ⟨rfl, rfl, ?_⟩
  rw [C10_summary_forwards [("currentWordIndex", .num 3)]
    (StoreState.mk (some (.parsed (.obj [("currentWordIndex", .num 3)])))
      false []) rfl rfl]
  simp [jget, truthy]

end ProgressStorage
